import Mathlib

/-!
Verification of `wrappy/base.py` from the pyrobot repository: a shallow
embedding of the configuration loader, logger initializer, notifier and
order-history file manager, with theorems settling the specification claims.

Conventions of the embedding:
* A JSON configuration object is a finite association list from string keys
  to string values; key absence models a `KeyError` in the Python source.
* Side effects are made explicit: functions return the list of lines printed
  to stderr, the list of log entries emitted, and the list of HTTP requests
  issued, alongside their result.
* Fallible operations return `Except Exn` where the Python source raises.
* The filesystem and the network are parameters (`fs`, `net`), since the
  Python source calls out to `open`/`requests.post`.
-/

namespace Wrappy

/-- A flat JSON configuration object: string keys mapped to string values.
Key absence models a Python `KeyError` on subscript access. -/
abbrev Config : Type := List (String × String)

/-- Subscript access `self.config[k]`: `some v` when the key is present,
`none` when the access would raise `KeyError`. -/
def Config.get (c : Config) (k : String) : Option String :=
  List.lookup k c

/-- The `try: self.x = self.config[k] except KeyError: self.x = dflt`
pattern used throughout `Log.__init__`. -/
def Config.getOr (c : Config) (k dflt : String) : String :=
  (c.get k).getD dflt

/-- Exceptions raised by the embedded code. `fileNotFoundError` models
Python `FileNotFoundError` (the spec calls it `ConfigNotFound`),
`valueError` models `ValueError`/`json.JSONDecodeError` (the spec calls it
`ConfigParseError`), `attributeError` models access to a never-assigned
attribute, `ioError` a failed `open`, and `transportError` a failure
raised by `requests.post`. -/
inductive Exn : Type
  | fileNotFoundError
  | valueError
  | attributeError (attr : String)
  | ioError (path : String)
  | transportError (msg : String)
  deriving DecidableEq, Repr

/-- Embedding of `json.load(open(path, ...))` wrapped in the `try/except` of
`Log.__init__` lines 13-20: a missing file prints a diagnostic to stderr
and re-raises `FileNotFoundError`; invalid JSON prints a diagnostic and
re-raises `ValueError`. `fileSys` maps a path to its content when the file
exists; `parse` models `json.load`, returning `none` on invalid JSON.
Returns the lines printed to stderr together with the outcome. -/
def loadConfig (fileSys : String → Option String) (parse : String → Option Config)
    (path : String) : List String × Except Exn Config :=
  match fileSys path with
  | none => (["[ERROR] Config file is not found."], .error .fileNotFoundError)
  | some content =>
    match parse content with
    | none => (["[ERROR] Json file is invalid."], .error .valueError)
    | some cfg => ([], .ok cfg)

/-- The configuration-derived fields assigned in `Log.__init__`
lines 23-39 (each a `try/except KeyError` with a documented default). -/
structure LogFields : Type where
  exchange_name : String
  bot_name : String
  log_level : String
  log_dir : String
  deriving DecidableEq, Repr

/-- Field extraction of `Log.__init__` lines 23-39. -/
def mkLogFields (c : Config) : LogFields :=
  { exchange_name := c.getOr "exchange_name" "Exchange"
    bot_name := c.getOr "bot_name" "Bot"
    log_level := c.getOr "log_level" "DEBUG"
    log_dir := c.getOr "log_dir" "log" }

/-- Embedding of `Log.__init__` end to end: load the configuration from `path`, then
extract the fields with their defaults. stderr lines are returned next to
the outcome. -/
def Log.init (fileSys : String → Option String) (parse : String → Option Config)
    (path : String) : List String × Except Exn LogFields :=
  match loadConfig fileSys parse path with
  | (errs, .error e) => (errs, .error e)
  | (errs, .ok cfg) => (errs, .ok (mkLogFields cfg))

/-! ## Logger initialization (`Log._initialize_logger`, lines 41-66) -/

/-- A handler attached to the named logger: the console `StreamHandler` or
the `RotatingFileHandler` (with its file path); each carries its level. -/
inductive Handler : Type
  | console (level : String)
  | file (path : String) (level : String)
  deriving DecidableEq, Repr

/-- State relevant to `_initialize_logger`: whether `self.logger` has been
assigned (Python: non-`None`), the level set on the named process-wide
logger, the handlers attached to it, and whether an ancestor logger (for
example the root logger) has handlers — `Logger.hasHandlers()` consults
ancestors too. -/
structure LoggerState : Type where
  selfLogger : Bool
  level : String
  handlers : List Handler
  ancestorHasHandlers : Bool
  deriving DecidableEq, Repr

/-- Embedding of `self.logger.hasHandlers()`: true when this logger or an ancestor has
at least one handler attached. -/
def LoggerState.hasHandlers (s : LoggerState) : Bool :=
  !s.handlers.isEmpty || s.ancestorHasHandlers

/-- Embedding of `Log._initialize_logger` (lines 41-66): a no-op when `self.logger` is
already set; otherwise fetches the named logger, sets its level, and — only
when it has no handlers yet — attaches one console handler, plus one
rotating file handler at `{log_dir}/{exchange_name}_{bot_name}.log` when
`self.log_dir` is truthy (a non-empty string). -/
def initializeLogger (lf : LogFields) (s : LoggerState) : LoggerState :=
  if s.selfLogger then s
  else
    let s1 : LoggerState := { s with selfLogger := true, level := lf.log_level }
    if s1.hasHandlers then s1
    else
      let withConsole := s1.handlers ++ [Handler.console lf.log_level]
      let handlers :=
        if lf.log_dir ≠ "" then
          withConsole ++ [Handler.file
            (lf.log_dir ++ "/" ++ lf.exchange_name ++ "_" ++ lf.bot_name ++ ".log")
            lf.log_level]
        else withConsole
      { s1 with handlers := handlers }

/-- Number of console sinks among a handler list. -/
def countConsole (hs : List Handler) : Nat :=
  hs.countP (fun h => match h with | .console _ => true | _ => false)

/-- Number of file sinks among a handler list. -/
def countFile (hs : List Handler) : Nat :=
  hs.countP (fun h => match h with | .file _ _ => true | _ => false)

/-! ## Notifier (`Notify`, lines 104-163) -/

/-- Entries written through the logger by the notifier: `info` on success
of the no-attachment branches, `errorE` (an exception logged at error
level via `self.log_error(e)`) on transport failure. -/
inductive LogEntry : Type
  | info (message : String)
  | errorE (e : Exn)
  deriving DecidableEq, Repr

/-- One `requests.post` call: the url argument (`none` models passing
Python `None`), the `data=` form fields, the `headers=`, and the `files=`
mapping (field name to file bytes). -/
structure Request : Type where
  url : Option String
  dataFields : List (String × String)
  headers : List (String × String)
  files : List (String × String)
  deriving DecidableEq, Repr

/-- The notification-channel state set up by `Notify.__init__`
(lines 109-119): `line_notify_token` is `none` when the config key is
absent — the attribute is then never assigned, so reading it raises
`AttributeError`; `discordWebhook` is `none` when absent — the attribute
is then explicitly assigned `None`. -/
structure NotifyState : Type where
  line_notify_token : Option String
  discordWebhook : Option String
  deriving DecidableEq, Repr

/-- Embedding of `Notify.__init__` lines 109-119: both keys read with
`try/except KeyError`. -/
def Notify.init (c : Config) : NotifyState :=
  { line_notify_token := c.get "line_notify_token"
    discordWebhook := c.get "discordWebhook" }

/-- The fixed LINE notification endpoint. -/
def lineEndpoint : String := "https://notify-api.line.me/api/notify"

/-- Result of a notification call: log entries emitted, `requests.post`
calls issued, and the outcome (`Except.error e` models a raised and
propagated exception). -/
structure NotifyResult : Type where
  log : List LogEntry
  requests : List Request
  result : Except Exn Unit
  deriving Repr

/-- The `try: requests.post(...); [log success] except Exception as e:
self.log_error(e); raise e` pattern shared by all four send branches of
`lineNotify`/`discordNotify`. `net` models `requests.post` (`some e` = the
call raised `e`); `successLog` is what the branch logs when the post
returns (`[.info message]` in the no-attachment branches, `[]` in the
attachment branches, which do not log on success). -/
def tryPost (net : Request → Option Exn) (req : Request)
    (successLog : List LogEntry) : NotifyResult :=
  match net req with
  | some e => { log := [.errorE e], requests := [req], result := .error e }
  | none => { log := successLog, requests := [req], result := .ok () }

/-- Embedding of `Notify.lineNotify` (lines 121-137). `fs` models `open(fileName, "rb")`
(`none` = the open raised; in the attachment branch the open sits inside
the try block, so its failure is logged and re-raised). Building the auth
header reads `self.line_notify_token`, raising `AttributeError` when the
attribute was never assigned — this happens before any try block, so it is
neither logged nor accompanied by a request. -/
def lineNotify (st : NotifyState) (net : Request → Option Exn)
    (fs : String → Option String) (message : String) (fileName : Option String) :
    NotifyResult :=
  let payload := [("message", message)]
  match st.line_notify_token with
  | none =>
    { log := [], requests := [], result := .error (.attributeError "line_notify_token") }
  | some tok =>
    let headers := [("Authorization", "Bearer " ++ tok)]
    match fileName with
    | none =>
      tryPost net
        { url := some lineEndpoint, dataFields := payload, headers := headers, files := [] }
        [.info message]
    | some fn =>
      match fs fn with
      | none =>
        { log := [.errorE (.ioError fn)], requests := [],
          result := .error (.ioError fn) }
      | some bytes =>
        tryPost net
          { url := some lineEndpoint, dataFields := payload, headers := headers,
            files := [("imageFile", bytes)] }
          []

/-- Embedding of `Notify.discordNotify` (lines 140-155): posts to `self.discordWebhook`
(passed through verbatim, even when it is `None`) with form field
`content` holding the message wrapped in single spaces, no headers, and —
when an attachment is given — the file bytes under `imageFile`. -/
def discordNotify (st : NotifyState) (net : Request → Option Exn)
    (fs : String → Option String) (message : String) (fileName : Option String) :
    NotifyResult :=
  let payload := [("content", " " ++ message ++ " ")]
  match fileName with
  | none =>
    tryPost net
      { url := st.discordWebhook, dataFields := payload, headers := [], files := [] }
      [.info message]
  | some fn =>
    match fs fn with
    | none =>
      { log := [.errorE (.ioError fn)], requests := [],
        result := .error (.ioError fn) }
    | some bytes =>
      tryPost net
        { url := st.discordWebhook, dataFields := payload, headers := [],
          files := [("imageFile", bytes)] }
        []

/-- Embedding of `Notify.statusNotify` (lines 157-163): LINE when `self.discordWebhook`
is `None`, Discord otherwise. -/
def statusNotify (st : NotifyState) (net : Request → Option Exn)
    (fs : String → Option String) (message : String) (fileName : Option String) :
    NotifyResult :=
  match st.discordWebhook with
  | none => lineNotify st net fs message fileName
  | some _ => discordNotify st net fs message fileName

/-! ## Order-history files (`BotBase`, lines 166-233) -/

/-- Modelled from the spec: the `OrderHistory` class lives in
`wrappy/logfile.py`, which is not under `src/`; per spec §3/§4.4 a per-day
order-history resource owns the deterministic file path, the fixed column
set established at bot construction, and an open file handle; `open`
acquires the handle and `close` releases it (safe on an already-closed
resource). -/
structure OrderHistory : Type where
  path : String
  columns : List String
  isOpen : Bool
  deriving DecidableEq, Repr

/-- Modelled from the spec: `OrderHistory(full_path, columns)` constructs a
not-yet-open resource for the given path and column set. -/
def OrderHistory.make (path : String) (columns : List String) : OrderHistory :=
  { path := path, columns := columns, isOpen := false }

/-- Modelled from the spec: `OrderHistory.open()` acquires the file
handle. -/
def OrderHistory.openFile (f : OrderHistory) : OrderHistory :=
  { f with isOpen := true }

/-- Modelled from the spec: `OrderHistory.close()` releases the handle; a
no-op on an already-closed resource. -/
def OrderHistory.close (f : OrderHistory) : OrderHistory :=
  { f with isOpen := false }

/-- The `BotBase.__init__` state relevant to order-history management
(lines 166-179): the directory, the file-name base
`{exchange_name}_{bot_name}_order_history`, the fixed column set, and the
day-string-keyed registry `self.order_history_files` (a Python dict,
embedded as an association list in insertion order). -/
structure BotBase : Type where
  order_history_dir : String
  order_history_file_name_base : String
  columns : List String
  order_history_files : List (String × OrderHistory)
  deriving DecidableEq, Repr

/-- Embedding of `BotBase.__init__` (lines 166-179) as far as order-history state is
concerned: `order_history_dir` re-reads `config["log_dir"]` with default
`'log'`, `columns` starts empty (`{}`), the file-name base is built from
the `Log` fields, and the registry starts empty. -/
def BotBase.init (c : Config) : BotBase :=
  let lf := mkLogFields c
  { order_history_dir := c.getOr "log_dir" "log"
    order_history_file_name_base := lf.exchange_name ++ "_" ++ lf.bot_name ++ "_order_history"
    columns := []
    order_history_files := [] }

/-- The dict membership test `today_str not in self.order_history_files`
(negated) together with subscript read: `some f` when registered. -/
def BotBase.lookupDay (b : BotBase) (day : String) : Option OrderHistory :=
  List.lookup day b.order_history_files

/-- The full path computed in `get_or_create_order_history_file`
lines 220-221. -/
def BotBase.orderHistoryPath (b : BotBase) (today_str : String) : String :=
  b.order_history_dir ++ "/" ++ (b.order_history_file_name_base ++ "_" ++ today_str ++ ".csv")

/-- Embedding of `BotBase.get_or_create_order_history_file` (lines 213-225),
parameterized by `today_str` — the value of `now_jst_str("%y%m%d")`, the
current JST day string (wrappy/time_util.py is not under `src/`; per spec
§4.4 it yields the JST calendar day, recomputed on every call). When no
resource is registered for the day, a new one is constructed for the
deterministic path, opened and registered; the registered resource for the
day is returned along with the updated state. -/
def BotBase.get_or_create_order_history_file (b : BotBase) (today_str : String) :
    BotBase × OrderHistory :=
  let full_path := b.orderHistoryPath today_str
  match b.lookupDay today_str with
  | some f => (b, f)
  | none =>
    let f := (OrderHistory.make full_path b.columns).openFile
    ({ b with order_history_files := b.order_history_files ++ [(today_str, f)] }, f)

/-- Embedding of `BotBase.close_order_history_files` (lines 228-233): closes every
registered resource by iterating over the dict values; the dict itself is
not modified. -/
def BotBase.close_order_history_files (b : BotBase) : BotBase :=
  { b with order_history_files :=
      b.order_history_files.map (fun p => (p.1, p.2.close)) }

/-! ## Shared helper lemmas -/

theorem Config.getOr_of_absent {c : Config} {k d : String} (h : c.get k = none) :
    c.getOr k d = d := by
  simp [Config.getOr, h]

theorem Config.getOr_of_present {c : Config} {k d v : String} (h : c.get k = some v) :
    c.getOr k d = v := by
  simp [Config.getOr, h]

theorem lookup_append_or {β : Type} (k : String) (l1 l2 : List (String × β)) :
    List.lookup k (l1 ++ l2) = (List.lookup k l1).or (List.lookup k l2) := by
  induction l1 with
  | nil => simp
  | cons p t ih =>
    by_cases h : k = p.1
    · simp [List.lookup, h]
    · simp [List.lookup, beq_false_of_ne h, ih]

theorem lookup_map_snd {β γ : Type} (g : β → γ) (k : String) (l : List (String × β)) :
    List.lookup k (l.map (fun p => (p.1, g p.2))) = (List.lookup k l).map g := by
  induction l with
  | nil => simp
  | cons p t ih =>
    by_cases h : k = p.1
    · simp [List.lookup, h]
    · simp [List.lookup, beq_false_of_ne h, ih]

theorem not_mem_keys_of_lookup_none {β : Type} {k : String} {l : List (String × β)}
    (h : List.lookup k l = none) : k ∉ l.map Prod.fst := by
  induction l with
  | nil => simp
  | cons p t ih =>
    by_cases hk : k = p.1
    · simp [List.lookup, hk] at h
    · simp only [List.lookup, beq_false_of_ne hk] at h
      simp [hk, ih h]

theorem str_append_left_cancel {a b c : String} (h : a ++ b = a ++ c) : b = c := by
  apply String.ext
  have hd : a.data ++ b.data = a.data ++ c.data := by
    have := congrArg String.data h
    simpa [String.data_append] using this
  exact List.append_cancel_left hd

theorem str_append_right_cancel {a b c : String} (h : a ++ c = b ++ c) : a = b := by
  apply String.ext
  have hd : a.data ++ c.data = b.data ++ c.data := by
    have := congrArg String.data h
    simpa [String.data_append] using this
  exact List.append_cancel_right hd

/-! ## Claim theorems -/

/-- Claim C3: loading the configuration fails with the config-not-found
error (Python `FileNotFoundError`, spec name `ConfigNotFound`) when the
path does not exist, and with the parse error (Python `ValueError`, spec
name `ConfigParseError`) when the content is not valid JSON; in both
cases exactly one human-readable diagnostic line is emitted to stderr and
the error propagates to the caller. -/
theorem loadConfig_error_handling (fileSys : String → Option String)
    (parse : String → Option Config) (path : String) :
    (fileSys path = none →
      Log.init fileSys parse path =
        (["[ERROR] Config file is not found."], Except.error Exn.fileNotFoundError)) ∧
    (∀ content, fileSys path = some content → parse content = none →
      Log.init fileSys parse path =
        (["[ERROR] Json file is invalid."], Except.error Exn.valueError)) := by
  constructor
  · intro h
    simp [Log.init, loadConfig, h]
  · intro content h1 h2
    simp [Log.init, loadConfig, h1, h2]

/-- Witness for C3: a missing file and a file of invalid JSON, at
concrete inputs. -/
theorem loadConfig_error_handling_witness :
    Log.init (fun _ => none) (fun _ => none) "config.json" =
      (["[ERROR] Config file is not found."], Except.error Exn.fileNotFoundError) ∧
    Log.init (fun _ => some "not json") (fun _ => none) "config.json" =
      (["[ERROR] Json file is invalid."], Except.error Exn.valueError) :=
  ⟨(loadConfig_error_handling (fun _ => none) (fun _ => none) "config.json").1 rfl,
   (loadConfig_error_handling (fun _ => some "not json") (fun _ => none)
      "config.json").2 "not json" rfl rfl⟩

/-- Claim C4: for every configuration, each of the four optional keys
falls back to exactly its documented default when absent
(`exchange_name="Exchange"`, `bot_name="Bot"`, `log_level="DEBUG"`,
`log_dir="log"`), and is taken verbatim when present. -/
theorem mkLogFields_defaults (c : Config) :
    ((c.get "exchange_name" = none → (mkLogFields c).exchange_name = "Exchange") ∧
     (∀ v, c.get "exchange_name" = some v → (mkLogFields c).exchange_name = v)) ∧
    ((c.get "bot_name" = none → (mkLogFields c).bot_name = "Bot") ∧
     (∀ v, c.get "bot_name" = some v → (mkLogFields c).bot_name = v)) ∧
    ((c.get "log_level" = none → (mkLogFields c).log_level = "DEBUG") ∧
     (∀ v, c.get "log_level" = some v → (mkLogFields c).log_level = v)) ∧
    ((c.get "log_dir" = none → (mkLogFields c).log_dir = "log") ∧
     (∀ v, c.get "log_dir" = some v → (mkLogFields c).log_dir = v)) :=
  ⟨⟨fun h => Config.getOr_of_absent h, fun _ h => Config.getOr_of_present h⟩,
   ⟨fun h => Config.getOr_of_absent h, fun _ h => Config.getOr_of_present h⟩,
   ⟨fun h => Config.getOr_of_absent h, fun _ h => Config.getOr_of_present h⟩,
   ⟨fun h => Config.getOr_of_absent h, fun _ h => Config.getOr_of_present h⟩⟩

/-- Witness for C4: a configuration providing only `bot_name` gets the
three remaining defaults and keeps `bot_name` verbatim. -/
theorem mkLogFields_defaults_witness :
    (mkLogFields [("bot_name", "TraderX")]).exchange_name = "Exchange" ∧
    (mkLogFields [("bot_name", "TraderX")]).bot_name = "TraderX" ∧
    (mkLogFields [("bot_name", "TraderX")]).log_level = "DEBUG" ∧
    (mkLogFields [("bot_name", "TraderX")]).log_dir = "log" :=
  ⟨(mkLogFields_defaults [("bot_name", "TraderX")]).1.1 (by decide),
   (mkLogFields_defaults [("bot_name", "TraderX")]).2.1.2 "TraderX" (by decide),
   (mkLogFields_defaults [("bot_name", "TraderX")]).2.2.1.1 (by decide),
   (mkLogFields_defaults [("bot_name", "TraderX")]).2.2.2.1 (by decide)⟩

theorem initializeLogger_selfLogger (lf : LogFields) (s : LoggerState) :
    (initializeLogger lf s).selfLogger = true := by
  cases hs : s.selfLogger <;> simp [initializeLogger, hs]
  split <;> simp

theorem initializeLogger_of_selfLogger {lf : LogFields} {t : LoggerState}
    (h : t.selfLogger = true) : initializeLogger lf t = t := by
  simp [initializeLogger, h]

theorem initializeLogger_iterate (lf : LogFields) (s : LoggerState) (n : Nat) :
    (initializeLogger lf)^[n + 1] s = initializeLogger lf s := by
  induction n with
  | zero => rfl
  | succ m ih =>
    rw [Function.iterate_succ_apply', ih,
      initializeLogger_of_selfLogger (initializeLogger_selfLogger lf s)]

theorem initializeLogger_fresh (lf : LogFields) (s : LoggerState)
    (hself : s.selfLogger = false) (hh : s.handlers = [])
    (ha : s.ancestorHasHandlers = false) :
    (initializeLogger lf s).handlers =
      if lf.log_dir ≠ "" then
        [Handler.console lf.log_level,
         Handler.file (lf.log_dir ++ "/" ++ lf.exchange_name ++ "_" ++ lf.bot_name ++ ".log")
           lf.log_level]
      else [Handler.console lf.log_level] := by
  simp [initializeLogger, hself, LoggerState.hasHandlers, hh, ha]

/-- Claim C5: logger initialization is idempotent — on a fresh state
(instance not yet initialized, named logger without handlers, no ancestor
handlers), any number (one or more) of calls equals a single call; the
named logger then has exactly one console sink, and a file sink exactly
when a log directory is configured (truthy); and a call on an
already-initialized instance changes nothing. -/
theorem initializeLogger_idempotent_spec (lf : LogFields) (s : LoggerState) (n : Nat)
    (hself : s.selfLogger = false) (hh : s.handlers = [])
    (ha : s.ancestorHasHandlers = false) :
    (∀ t : LoggerState, t.selfLogger = true → initializeLogger lf t = t) ∧
    (initializeLogger lf)^[n + 1] s = initializeLogger lf s ∧
    countConsole ((initializeLogger lf)^[n + 1] s).handlers = 1 ∧
    countFile ((initializeLogger lf)^[n + 1] s).handlers =
      (if lf.log_dir ≠ "" then 1 else 0) := by
  refine ⟨fun t ht => initializeLogger_of_selfLogger ht,
    initializeLogger_iterate lf s n, ?_, ?_⟩ <;>
    rw [initializeLogger_iterate, initializeLogger_fresh lf s hself hh ha] <;>
    by_cases hld : lf.log_dir = "" <;>
    simp [hld, countConsole, countFile]

/-- Witness for C5: three initialization calls on a fresh state with the
default fields leave exactly one console handler and one file handler. -/
theorem initializeLogger_idempotent_spec_witness :
    countConsole ((initializeLogger
      { exchange_name := "Exchange", bot_name := "Bot",
        log_level := "DEBUG", log_dir := "log" })^[3]
      { selfLogger := false, level := "", handlers := [],
        ancestorHasHandlers := false }).handlers = 1 ∧
    countFile ((initializeLogger
      { exchange_name := "Exchange", bot_name := "Bot",
        log_level := "DEBUG", log_dir := "log" })^[3]
      { selfLogger := false, level := "", handlers := [],
        ancestorHasHandlers := false }).handlers = (if ("log" : String) ≠ "" then 1 else 0) :=
  ⟨(initializeLogger_idempotent_spec
      { exchange_name := "Exchange", bot_name := "Bot",
        log_level := "DEBUG", log_dir := "log" }
      { selfLogger := false, level := "", handlers := [],
        ancestorHasHandlers := false } 2 rfl rfl rfl).2.2.1,
   (initializeLogger_idempotent_spec
      { exchange_name := "Exchange", bot_name := "Bot",
        log_level := "DEBUG", log_dir := "log" }
      { selfLogger := false, level := "", handlers := [],
        ancestorHasHandlers := false } 2 rfl rfl rfl).2.2.2⟩

theorem tryPost_mem {net : Request → Option Exn} {req : Request}
    {slog : List LogEntry} {r : Request}
    (h : r ∈ (tryPost net req slog).requests) : r = req := by
  cases hnet : net req <;> simp [tryPost, hnet] at h <;> exact h

theorem tryPost_error_eq {net : Request → Option Exn} {req : Request}
    {slog : List LogEntry} {e : Exn} (h : net req = some e) :
    tryPost net req slog =
      { log := [.errorE e], requests := [req], result := .error e } := by
  simp [tryPost, h]

theorem lineNotify_requests {st : NotifyState} {net : Request → Option Exn}
    {fs : String → Option String} {message : String} {fileName : Option String}
    {r : Request} (h : r ∈ (lineNotify st net fs message fileName).requests) :
    ∃ tok, st.line_notify_token = some tok ∧
      r.url = some lineEndpoint ∧ r.dataFields = [("message", message)] ∧
      r.headers = [("Authorization", "Bearer " ++ tok)] := by
  cases htok : st.line_notify_token with
  | none => simp [lineNotify, htok] at h
  | some tok =>
    refine ⟨tok, rfl, ?_⟩
    cases fileName with
    | none =>
      simp only [lineNotify, htok] at h
      have hreq := tryPost_mem h
      subst hreq
      simp
    | some fn =>
      cases hfs : fs fn with
      | none => simp [lineNotify, htok, hfs] at h
      | some bytes =>
        simp only [lineNotify, htok, hfs] at h
        have hreq := tryPost_mem h
        subst hreq
        simp

theorem discordNotify_requests {st : NotifyState} {net : Request → Option Exn}
    {fs : String → Option String} {message : String} {fileName : Option String}
    {r : Request} (h : r ∈ (discordNotify st net fs message fileName).requests) :
    r.url = st.discordWebhook ∧ r.headers = [] ∧
    r.dataFields = [("content", " " ++ message ++ " ")] := by
  cases fileName with
  | none =>
    simp only [discordNotify] at h
    have hreq := tryPost_mem h
    subst hreq
    simp
  | some fn =>
    cases hfs : fs fn with
    | none => simp [discordNotify, hfs] at h
    | some bytes =>
      simp only [discordNotify, hfs] at h
      have hreq := tryPost_mem h
      subst hreq
      simp

/-- Claim C1: `statusNotify` routes to exactly one channel determined by
configuration presence — with a Discord webhook configured it equals the
Discord path and every request it issues goes to the webhook URL with no
LINE auth header; with no webhook it equals the LINE path and every
request goes to the LINE endpoint carrying the configured bearer token. -/
theorem statusNotify_routing (st : NotifyState) (net : Request → Option Exn)
    (fs : String → Option String) (message : String) (fileName : Option String) :
    (∀ u, st.discordWebhook = some u →
      statusNotify st net fs message fileName = discordNotify st net fs message fileName ∧
      ∀ r ∈ (statusNotify st net fs message fileName).requests,
        r.url = some u ∧ r.headers = []) ∧
    (st.discordWebhook = none →
      statusNotify st net fs message fileName = lineNotify st net fs message fileName ∧
      ∀ r ∈ (statusNotify st net fs message fileName).requests,
        r.url = some lineEndpoint ∧
        ∃ tok, st.line_notify_token = some tok ∧
          r.headers = [("Authorization", "Bearer " ++ tok)]) := by
  constructor
  · intro u hu
    have hroute : statusNotify st net fs message fileName =
        discordNotify st net fs message fileName := by
      simp [statusNotify, hu]
    refine ⟨hroute, ?_⟩
    rw [hroute]
    intro r hr
    have h := discordNotify_requests hr
    exact ⟨hu ▸ h.1, h.2.1⟩
  · intro hn
    have hroute : statusNotify st net fs message fileName =
        lineNotify st net fs message fileName := by
      simp [statusNotify, hn]
    refine ⟨hroute, ?_⟩
    rw [hroute]
    intro r hr
    obtain ⟨tok, htok, hurl, _, hheaders⟩ := lineNotify_requests hr
    exact ⟨hurl, tok, htok, hheaders⟩

/-- Witness for C1: with a webhook configured `statusNotify` is the
Discord path; with the webhook absent it is the LINE path. -/
theorem statusNotify_routing_witness :
    statusNotify ⟨some "tok123", some "https://discord.example/hook"⟩
        (fun _ => none) (fun _ => none) "hello" none =
      discordNotify ⟨some "tok123", some "https://discord.example/hook"⟩
        (fun _ => none) (fun _ => none) "hello" none ∧
    statusNotify ⟨some "tok123", none⟩ (fun _ => none) (fun _ => none) "hello" none =
      lineNotify ⟨some "tok123", none⟩ (fun _ => none) (fun _ => none) "hello" none :=
  ⟨((statusNotify_routing ⟨some "tok123", some "https://discord.example/hook"⟩
      (fun _ => none) (fun _ => none) "hello" none).1
      "https://discord.example/hook" rfl).1,
   ((statusNotify_routing ⟨some "tok123", none⟩
      (fun _ => none) (fun _ => none) "hello" none).2 rfl).1⟩

/-- Claim C6: when the HTTP send issued by the LINE or Discord path raises
a transport exception, the notifier logs exactly that exception at error
level and re-raises the same exception; the failure is never swallowed. -/
theorem notify_transport_error_surfaced (st : NotifyState)
    (net : Request → Option Exn) (fs : String → Option String)
    (message : String) (fileName : Option String) (e : Exn) :
    (∀ r ∈ (lineNotify st net fs message fileName).requests, net r = some e →
      (lineNotify st net fs message fileName).log = [LogEntry.errorE e] ∧
      (lineNotify st net fs message fileName).result = Except.error e) ∧
    (∀ r ∈ (discordNotify st net fs message fileName).requests, net r = some e →
      (discordNotify st net fs message fileName).log = [LogEntry.errorE e] ∧
      (discordNotify st net fs message fileName).result = Except.error e) := by
  constructor
  · intro r hr hnet
    cases htok : st.line_notify_token with
    | none => simp [lineNotify, htok] at hr
    | some tok =>
      cases fileName with
      | none =>
        simp only [lineNotify, htok] at hr ⊢
        have hreq := tryPost_mem hr
        subst hreq
        rw [tryPost_error_eq hnet]
        exact ⟨rfl, rfl⟩
      | some fn =>
        cases hfs : fs fn with
        | none => simp [lineNotify, htok, hfs] at hr
        | some bytes =>
          simp only [lineNotify, htok, hfs] at hr ⊢
          have hreq := tryPost_mem hr
          subst hreq
          rw [tryPost_error_eq hnet]
          exact ⟨rfl, rfl⟩
  · intro r hr hnet
    cases fileName with
    | none =>
      simp only [discordNotify] at hr ⊢
      have hreq := tryPost_mem hr
      subst hreq
      rw [tryPost_error_eq hnet]
      exact ⟨rfl, rfl⟩
    | some fn =>
      cases hfs : fs fn with
      | none => simp [discordNotify, hfs] at hr
      | some bytes =>
        simp only [discordNotify, hfs] at hr ⊢
        have hreq := tryPost_mem hr
        subst hreq
        rw [tryPost_error_eq hnet]
        exact ⟨rfl, rfl⟩

/-- Witness for C6: a failing transport on the LINE no-attachment branch
is logged at error level and re-raised. -/
theorem notify_transport_error_surfaced_witness :
    (lineNotify ⟨some "tok123", none⟩ (fun _ => some (Exn.transportError "boom"))
      (fun _ => none) "hi" none).log = [LogEntry.errorE (Exn.transportError "boom")] ∧
    (lineNotify ⟨some "tok123", none⟩ (fun _ => some (Exn.transportError "boom"))
      (fun _ => none) "hi" none).result = Except.error (Exn.transportError "boom") :=
  (notify_transport_error_surfaced ⟨some "tok123", none⟩
      (fun _ => some (Exn.transportError "boom")) (fun _ => none) "hi" none
      (Exn.transportError "boom")).1
    { url := some lineEndpoint, dataFields := [("message", "hi")],
      headers := [("Authorization", "Bearer " ++ "tok123")], files := [] }
    (by decide) rfl

/-- Claim C8: every request issued by the Discord path carries form field
`content` holding exactly the message wrapped in a single leading and a
single trailing space, and — when an attachment path is given and its file
opens to some bytes — the bytes under field name `imageFile`. -/
theorem discordNotify_payload_spec (st : NotifyState) (net : Request → Option Exn)
    (fs : String → Option String) (message : String) (fileName : Option String) :
    (∀ r ∈ (discordNotify st net fs message fileName).requests,
      r.dataFields = [("content", " " ++ message ++ " ")]) ∧
    (∀ fn bytes, fs fn = some bytes →
      ∀ r ∈ (discordNotify st net fs message (some fn)).requests,
        r.files = [("imageFile", bytes)]) := by
  constructor
  · intro r hr
    exact (discordNotify_requests hr).2.2
  · intro fn bytes hfs r hr
    simp only [discordNotify, hfs] at hr
    have hreq := tryPost_mem hr
    subst hreq
    rfl

/-- Witness for C8: the Discord attachment branch at concrete inputs
attaches the file bytes under `imageFile`. -/
theorem discordNotify_payload_spec_witness :
    ∀ r ∈ (discordNotify ⟨none, some "https://discord.example/hook"⟩ (fun _ => none)
        (fun _ => some "PNGBYTES") "hello" (some "chart.png")).requests,
      r.files = [("imageFile", "PNGBYTES")] :=
  (discordNotify_payload_spec ⟨none, some "https://discord.example/hook"⟩
      (fun _ => none) (fun _ => some "PNGBYTES") "hello" (some "chart.png")).2
    "chart.png" "PNGBYTES" rfl

/-- Claim C9: with neither `discordWebhook` nor `line_notify_token` in the
configuration, `statusNotify` raises `AttributeError` for the never-set
`line_notify_token` attribute, issues no HTTP request, and logs nothing at
error level. -/
theorem statusNotify_missing_token_attributeError (c : Config)
    (net : Request → Option Exn) (fs : String → Option String)
    (message : String) (fileName : Option String)
    (hd : c.get "discordWebhook" = none) (hl : c.get "line_notify_token" = none) :
    statusNotify (Notify.init c) net fs message fileName =
      { log := [], requests := [],
        result := Except.error (Exn.attributeError "line_notify_token") } := by
  simp [statusNotify, lineNotify, Notify.init, hd, hl]

/-- Witness for C9: the empty configuration. -/
theorem statusNotify_missing_token_attributeError_witness :
    statusNotify (Notify.init []) (fun _ => none) (fun _ => none) "hello" none =
      { log := [], requests := [],
        result := Except.error (Exn.attributeError "line_notify_token") } :=
  statusNotify_missing_token_attributeError [] (fun _ => none) (fun _ => none)
    "hello" none rfl rfl

theorem lookup_some_mem {β : Type} {k : String} {v : β} {l : List (String × β)}
    (h : List.lookup k l = some v) : (k, v) ∈ l := by
  induction l with
  | nil => simp [List.lookup] at h
  | cons p t ih =>
    by_cases hk : k = p.1
    · simp [List.lookup, hk] at h
      subst hk
      simp [← h]
    · simp only [List.lookup, beq_false_of_ne hk] at h
      simp [ih h]

theorem get_or_create_of_registered {b : BotBase} {d : String} {f : OrderHistory}
    (h : b.lookupDay d = some f) :
    b.get_or_create_order_history_file d = (b, f) := by
  simp [BotBase.get_or_create_order_history_file, h]

theorem get_or_create_of_unregistered {b : BotBase} {d : String}
    (h : b.lookupDay d = none) :
    b.get_or_create_order_history_file d =
      ({ b with order_history_files :=
          b.order_history_files ++
            [(d, (OrderHistory.make (b.orderHistoryPath d) b.columns).openFile)] },
       (OrderHistory.make (b.orderHistoryPath d) b.columns).openFile) := by
  simp [BotBase.get_or_create_order_history_file, h]

theorem orderHistoryPath_inj {b : BotBase} {d1 d2 : String}
    (h : b.orderHistoryPath d1 = b.orderHistoryPath d2) : d1 = d2 := by
  unfold BotBase.orderHistoryPath at h
  have h1 := str_append_left_cancel h
  have h2 := str_append_right_cancel h1
  exact str_append_left_cancel h2

/-- Claim C2: at most one order-history resource exists per day key —
`get_or_create_order_history_file` returns the registered resource
unchanged when one exists for the day, otherwise constructs, opens and
registers exactly one new resource for the day (preserving distinctness
of day keys), and two distinct day strings always yield two distinct file
paths. -/
theorem get_or_create_registry_spec (b : BotBase) (d d1 d2 : String) (f : OrderHistory) :
    (b.lookupDay d = some f → b.get_or_create_order_history_file d = (b, f)) ∧
    (b.lookupDay d = none →
      (b.get_or_create_order_history_file d).2 =
        (OrderHistory.make (b.orderHistoryPath d) b.columns).openFile ∧
      (b.get_or_create_order_history_file d).1.order_history_files =
        b.order_history_files ++ [(d, (b.get_or_create_order_history_file d).2)] ∧
      (b.get_or_create_order_history_file d).1.lookupDay d =
        some ((b.get_or_create_order_history_file d).2)) ∧
    ((b.order_history_files.map Prod.fst).Nodup →
      ((b.get_or_create_order_history_file d).1.order_history_files.map Prod.fst).Nodup) ∧
    (d1 ≠ d2 → b.orderHistoryPath d1 ≠ b.orderHistoryPath d2) := by
  refine ⟨fun h => get_or_create_of_registered h, ?_, ?_, ?_⟩
  · intro h
    rw [get_or_create_of_unregistered h]
    refine ⟨rfl, rfl, ?_⟩
    show List.lookup d (b.order_history_files ++ _) = _
    rw [lookup_append_or]
    have h' : List.lookup d b.order_history_files = none := h
    rw [h']
    simp [List.lookup]
  · intro hnd
    cases hl : b.lookupDay d with
    | some f' =>
      rw [get_or_create_of_registered hl]
      exact hnd
    | none =>
      rw [get_or_create_of_unregistered hl]
      have hnotmem : d ∉ b.order_history_files.map Prod.fst :=
        not_mem_keys_of_lookup_none hl
      simp [List.nodup_append, hnd, hnotmem]
  · intro hne heq
    exact hne (orderHistoryPath_inj heq)

/-- Witness for C2: starting from the default bot state, day `"230101"`
creates and registers the opened resource; a state already holding a
resource for `"230101"` returns it unchanged; days `"230101"` and
`"230102"` have distinct paths. -/
theorem get_or_create_registry_spec_witness :
    ((BotBase.init []).get_or_create_order_history_file "230101").2 =
      (OrderHistory.make ((BotBase.init []).orderHistoryPath "230101") []).openFile ∧
    BotBase.get_or_create_order_history_file
      { order_history_dir := "log",
        order_history_file_name_base := "Exchange_Bot_order_history",
        columns := [],
        order_history_files := [("230101",
          { path := "log/Exchange_Bot_order_history_230101.csv",
            columns := [], isOpen := true })] } "230101" =
      ({ order_history_dir := "log",
         order_history_file_name_base := "Exchange_Bot_order_history",
         columns := [],
         order_history_files := [("230101",
           { path := "log/Exchange_Bot_order_history_230101.csv",
             columns := [], isOpen := true })] },
       { path := "log/Exchange_Bot_order_history_230101.csv",
         columns := [], isOpen := true }) ∧
    (BotBase.init []).orderHistoryPath "230101" ≠ (BotBase.init []).orderHistoryPath "230102" :=
  ⟨((get_or_create_registry_spec (BotBase.init []) "230101" "230101" "230102"
      { path := "", columns := [], isOpen := false }).2.1 (by decide)).1,
   (get_or_create_registry_spec
      { order_history_dir := "log",
        order_history_file_name_base := "Exchange_Bot_order_history",
        columns := [],
        order_history_files := [("230101",
          { path := "log/Exchange_Bot_order_history_230101.csv",
            columns := [], isOpen := true })] } "230101" "230101" "230102"
      { path := "log/Exchange_Bot_order_history_230101.csv",
        columns := [], isOpen := true }).1 (by decide),
   (get_or_create_registry_spec (BotBase.init []) "230101" "230101" "230102"
      { path := "", columns := [], isOpen := false }).2.2.2 (by decide)⟩

/-- Claim C7: the order-history resource created or returned for day
`yymmdd` has exactly the path
`{log_dir}/{exchange_name}_{bot_name}_order_history_{yymmdd}.csv` with the
three components taken from the configuration or their defaults; the
path-correctness invariant holds of the freshly constructed bot and is
preserved by `get_or_create_order_history_file`. -/
theorem order_history_path_spec (c : Config) (b : BotBase) (d : String) :
    ((BotBase.init c).orderHistoryPath d =
      c.getOr "log_dir" "log" ++ "/" ++ c.getOr "exchange_name" "Exchange" ++ "_" ++
        c.getOr "bot_name" "Bot" ++ "_order_history_" ++ d ++ ".csv") ∧
    ((∀ p ∈ b.order_history_files, p.2.path = b.orderHistoryPath p.1) →
      ((b.get_or_create_order_history_file d).2.path = b.orderHistoryPath d ∧
       ∀ p ∈ (b.get_or_create_order_history_file d).1.order_history_files,
         p.2.path = (b.get_or_create_order_history_file d).1.orderHistoryPath p.1)) := by
  constructor
  · have key : ∀ x : String, ("_order_history" : String) ++ ("_" ++ x) = "_order_history_" ++ x := by
      intro x
      rw [← String.append_assoc]
      rfl
    simp only [BotBase.orderHistoryPath, BotBase.init, mkLogFields, String.append_assoc, key]
  · intro hinv
    cases hl : b.lookupDay d with
    | some f =>
      rw [get_or_create_of_registered hl]
      exact ⟨hinv (d, f) (lookup_some_mem hl), hinv⟩
    | none =>
      rw [get_or_create_of_unregistered hl]
      refine ⟨rfl, ?_⟩
      intro p hp
      rcases List.mem_append.mp hp with hmem | hmem
      · exact hinv p hmem
      · simp at hmem
        subst hmem
        rfl

/-- Witness for C7: the example configuration of spec §8 yields the
documented file path for day `"230615"`. -/
theorem order_history_path_spec_witness :
    (BotBase.init [("exchange_name", "Acme"), ("bot_name", "Trader")]).orderHistoryPath
        "230615" =
      "log" ++ "/" ++ "Acme" ++ "_" ++ "Trader" ++ "_order_history_" ++ "230615" ++ ".csv" ∧
    ((BotBase.init [("exchange_name", "Acme"), ("bot_name", "Trader")]).get_or_create_order_history_file
        "230615").2.path =
      (BotBase.init [("exchange_name", "Acme"), ("bot_name", "Trader")]).orderHistoryPath
        "230615" :=
  ⟨by
    have h := (order_history_path_spec [("exchange_name", "Acme"), ("bot_name", "Trader")]
      (BotBase.init [("exchange_name", "Acme"), ("bot_name", "Trader")]) "230615").1
    rw [h]
    rfl,
   ((order_history_path_spec [("exchange_name", "Acme"), ("bot_name", "Trader")]
      (BotBase.init [("exchange_name", "Acme"), ("bot_name", "Trader")]) "230615").2
     (by simp [BotBase.init])).1⟩

/-- Claim C10: `close_order_history_files` leaves the day-to-resource
mapping's keys unchanged, and a subsequent
`get_or_create_order_history_file` on a day that already had a registered
resource returns that same, now-closed resource without constructing or
reopening anything (the state is unchanged and the returned resource is
closed). -/
theorem close_order_history_frame (b : BotBase) (d : String) (f : OrderHistory) :
    (b.close_order_history_files.order_history_files.map Prod.fst =
      b.order_history_files.map Prod.fst) ∧
    (b.lookupDay d = some f →
      b.close_order_history_files.get_or_create_order_history_file d =
        (b.close_order_history_files, f.close) ∧
      f.close.isOpen = false) := by
  constructor
  · simp [BotBase.close_order_history_files]
  · intro h
    have hl : b.close_order_history_files.lookupDay d = some f.close := by
      show List.lookup d (b.order_history_files.map (fun p => (p.1, p.2.close))) = _
      rw [lookup_map_snd]
      have h' : List.lookup d b.order_history_files = some f := h
      rw [h']
      rfl
    exact ⟨get_or_create_of_registered hl, rfl⟩

/-- Witness for C10: closing a state holding an open resource for
`"230101"` and then requesting that day returns the same closed resource
with the state unchanged. -/
theorem close_order_history_frame_witness :
    (BotBase.close_order_history_files
        { order_history_dir := "log",
          order_history_file_name_base := "Exchange_Bot_order_history",
          columns := [],
          order_history_files := [("230101",
            { path := "log/Exchange_Bot_order_history_230101.csv",
              columns := [], isOpen := true })] }).get_or_create_order_history_file
        "230101" =
      (BotBase.close_order_history_files
        { order_history_dir := "log",
          order_history_file_name_base := "Exchange_Bot_order_history",
          columns := [],
          order_history_files := [("230101",
            { path := "log/Exchange_Bot_order_history_230101.csv",
              columns := [], isOpen := true })] },
       OrderHistory.close
         { path := "log/Exchange_Bot_order_history_230101.csv",
           columns := [], isOpen := true }) :=
  ((close_order_history_frame
      { order_history_dir := "log",
        order_history_file_name_base := "Exchange_Bot_order_history",
        columns := [],
        order_history_files := [("230101",
          { path := "log/Exchange_Bot_order_history_230101.csv",
            columns := [], isOpen := true })] } "230101"
      { path := "log/Exchange_Bot_order_history_230101.csv",
        columns := [], isOpen := true }).2 (by decide)).1

end Wrappy
